import Mathlib

/-!
The tudatpy kernel bindings: embedding and verified interface properties.

The tudatpy kernel is a pybind11 layer: every `py::class_<...>(m, "Name")` chain
registers one Python class, and every `.def`, `.def_property`,
`.def_property_readonly` and `.def_readwrite` link of the chain registers one
member of it.  The embedding keeps each chain as a value built with functions of
the same names, applied in the order of the source, so that each definition can
be read side by side with the C++ file it comes from.
-/

namespace Tudatpy

/-! ## The pybind11 registration model -/

/-- One template argument of a C++ class type: an integer or a type name. -/
inductive TemplateArg where
  | int (n : Nat)
  | type (name : String)
deriving DecidableEq, Repr

/-- A C++ class type `name<args...>`, the namespace alias written as in the source. -/
structure CppType where
  name : String
  args : List TemplateArg
deriving DecidableEq, Repr

/-- A keyword argument: `py::arg(name)` or `py::arg(name) = defaultValue`; the
default is kept as the expression text of the source. -/
structure Arg where
  name : String
  defaultValue : Option String
deriving DecidableEq, Repr

/-- The link `py::arg(name)`. -/
def py_arg (name : String) : Arg := ⟨name, none⟩

/-- The link `py::arg(name) = value`. -/
def py_arg_eq (name value : String) : Arg := ⟨name, some value⟩

/-- One registered member of a bound class.  C++ targets are the member names
after the `&Class::` qualifier; `doc` is the key passed to `get_docstring`. -/
inductive Member where
  | init (cppParams : List String) (args : List Arg) (doc : Option String)
  | method (name target : String) (args : List Arg) (doc : Option String)
  | property_readonly (name getter : String) (doc : Option String)
  | property (name getter setter : String) (doc : Option String)
  | readwrite (name field : String) (doc : Option String)
deriving DecidableEq, Repr

/-- A class registered with `py::class_<cppType, holder, bases...>(m, name)`. -/
structure PyClass where
  cppType : CppType
  bases : List CppType
  name : String
  members : List Member
deriving DecidableEq, Repr

/-- The expression `py::class_<cppType, std::shared_ptr<cppType>, bases...>(m, name)`. -/
def class_ (cppType : CppType) (bases : List CppType) (name : String) : PyClass :=
  ⟨cppType, bases, name, []⟩

namespace PyClass

/-- The link `.def(py::init<cppParams...>(), args..., doc)`. -/
def def_init (c : PyClass) (cppParams : List String) (args : List Arg)
    (doc : Option String) : PyClass :=
  ⟨c.cppType, c.bases, c.name, c.members ++ [Member.init cppParams args doc]⟩

/-- The link `.def(name, &Class::target, args..., doc)`. -/
def def_ (c : PyClass) (name target : String) (args : List Arg)
    (doc : Option String) : PyClass :=
  ⟨c.cppType, c.bases, c.name, c.members ++ [Member.method name target args doc]⟩

/-- The link `.def_property_readonly(name, &Class::getter, doc)`. -/
def def_property_readonly (c : PyClass) (name getter : String)
    (doc : Option String) : PyClass :=
  ⟨c.cppType, c.bases, c.name, c.members ++ [Member.property_readonly name getter doc]⟩

/-- The link `.def_property(name, &Class::getter, &Class::setter)`. -/
def def_property (c : PyClass) (name getter setter : String)
    (doc : Option String) : PyClass :=
  ⟨c.cppType, c.bases, c.name, c.members ++ [Member.property name getter setter doc]⟩

/-- The link `.def_readwrite(name, &Class::field)`. -/
def def_readwrite (c : PyClass) (name field : String)
    (doc : Option String) : PyClass :=
  ⟨c.cppType, c.bases, c.name, c.members ++ [Member.readwrite name field doc]⟩

end PyClass

namespace Member

/-- The Python attribute name under which a member is reachable. -/
def pyName : Member → String
  | init _ _ _ => "__init__"
  | method n _ _ _ => n
  | property_readonly n _ _ => n
  | property n _ _ _ => n
  | readwrite n _ _ => n

/-- Members that pybind11 installs as Python properties (data descriptors). -/
def isProperty : Member → Bool
  | property_readonly _ _ _ => true
  | property _ _ _ _ => true
  | readwrite _ _ _ => true
  | _ => false

/-- Members installed as callable methods, the constructor not counted. -/
def isMethod : Member → Bool
  | method _ _ _ _ => true
  | _ => false

/-- Whether the member is a constructor overload. -/
def isInit : Member → Bool
  | init _ _ _ => true
  | _ => false

/-- What a read of the attribute reaches: the getter of a property, the field
of a `def_readwrite`.  Methods and constructors have none. -/
def getter? : Member → Option String
  | property_readonly _ g _ => some g
  | property _ g _ _ => some g
  | readwrite _ f _ => some f
  | _ => none

/-- What an assignment to the attribute reaches: the setter of `def_property`,
the field of `def_readwrite`.  A `def_property_readonly` has no setter, and
assigning to it raises `AttributeError`. -/
def setter? : Member → Option String
  | property _ _ s _ => some s
  | readwrite _ f _ => some f
  | _ => none

/-- The C++ member function a method call runs. -/
def target? : Member → Option String
  | method _ t _ _ => some t
  | _ => none

/-- The keyword arguments of a method or constructor, in positional order. -/
def args : Member → List Arg
  | init _ a _ => a
  | method _ _ a _ => a
  | _ => []

/-- The parameters of a constructor overload: each keyword name paired with the
C++ parameter type at the same position of `py::init<...>`. -/
def params : Member → List (String × String)
  | init p a _ => (a.map Arg.name).zip p
  | _ => []

end Member

namespace PyClass

/-- The first member registered under a Python name. -/
def lookup (c : PyClass) (n : String) : Option Member :=
  c.members.find? (fun m => m.pyName == n)

/-- The properties of a class, in registration order. -/
def properties (c : PyClass) : List Member := c.members.filter Member.isProperty

/-- The methods of a class, in registration order, constructors excluded. -/
def methods (c : PyClass) : List Member := c.members.filter Member.isMethod

/-- The constructor overloads of a class. -/
def constructors (c : PyClass) : List Member := c.members.filter Member.isInit

/-- The names of the keyword arguments of the member registered under `n`. -/
def argNames (c : PyClass) (n : String) : Option (List String) :=
  (c.lookup n).map (fun m => m.args.map Arg.name)

end PyClass

/-! ## expose_numerical_simulation.cpp -/

/-- The template arguments `<double, double, double>`. -/
def ddd : List TemplateArg :=
  [TemplateArg.type "double", TemplateArg.type "double", TemplateArg.type "double"]

/-- The template arguments `<double, double>`. -/
def dd : List TemplateArg := [TemplateArg.type "double", TemplateArg.type "double"]

/-- The class chain of lines 56-137. -/
def SingleArcSimulator : PyClass :=
  (class_ ⟨"tns::SingleArcSimulator", ddd⟩ [] "SingleArcSimulator")
  |>.def_init
      ["const tudat::simulation_setup::SystemOfBodies &",
       "const std::shared_ptr<tudat::numerical_integrators::IntegratorSettings<double>>",
       "const std::shared_ptr<tp::PropagatorSettings<double>>",
       "const bool", "const bool", "const bool", "const bool"]
      [py_arg "bodies",
       py_arg "integrator_settings",
       py_arg "propagator_settings",
       py_arg_eq "are_equations_of_motion_to_be_integrated" "true",
       py_arg_eq "clear_numerical_solutions" "false",
       py_arg_eq "set_integrated_result" "false",
       py_arg_eq "print_dependent_variable_data" "true"]
      (some "SingleArcSimulator.ctor")
  |>.def_ "integrate_equations_of_motion" "integrateEquationsOfMotion" []
      (some "SingleArcSimulator.integrate_equations_of_motion")
  |>.def_ "integrate_to_termination" "integrateToTermination" []
      (some "SingleArcSimulator.integrate_to_termination")
  |>.def_ "integrate_by_step" "integrateByStep" [py_arg "steps"]
      (some "SingleArcSimulator.step")
  |>.def_ "is_terminal" "isTerminal" []
      (some "SingleArcSimulator.is_terminal")
  |>.def_property_readonly "state_history" "getEquationsOfMotionNumericalSolution"
      (some "SingleArcSimulator.state_history")
  |>.def_property_readonly "unprocessed_state_history"
      "getEquationsOfMotionNumericalSolutionRaw"
      (some "SingleArcSimulator.unprocessed_state_history")
  |>.def_property_readonly "dependent_variable_history" "getDependentVariableHistory"
      (some "SingleArcSimulator.dependent_variable_history")
  |>.def_property_readonly "cumulative_computation_time_history"
      "getCumulativeComputationTimeHistory"
      (some "SingleArcSimulator.cumulative_computation_time_history")
  |>.def_property_readonly "cumulative_number_of_function_evaluations"
      "getCumulativeNumberOfFunctionEvaluations"
      (some "SingleArcSimulator.cumulative_number_of_function_evaluations")
  |>.def_property_readonly "integrator_settings" "getIntegratorSettings"
      (some "SingleArcSimulator.integrator_settings")
  |>.def_property_readonly "state_derivative_function" "getStateDerivativeFunction"
      (some "SingleArcSimulator.state_derivative_function")
  |>.def_property_readonly "environment_updater" "getEnvironmentUpdater"
      (some "SingleArcSimulator.environment_updater")
  |>.def_property_readonly "propagation_termination_reason"
      "getPropagationTerminationReason"
      (some "SingleArcSimulator.propagation_termination_reason")
  |>.def_property_readonly "integration_completed_successfully"
      "integrationCompletedSuccessfully"
      (some "SingleArcSimulator.integration_completed_successfully")
  |>.def_property_readonly "dependent_variable_ids" "getDependentVariableIds"
      (some "SingleArcSimulator.dependent_variable_ids")

/-- The class chain of lines 164-205. -/
def SingleArcVariationalSimulator : PyClass :=
  (class_ ⟨"tp::SingleArcVariationalEquationsSolver", dd⟩ [] "SingleArcVariationalSimulator")
  |>.def_init
      ["const tudat::simulation_setup::SystemOfBodies&",
       "const std::shared_ptr< tudat::numerical_integrators::IntegratorSettings<double>>",
       "const std::shared_ptr< tp::PropagatorSettings<double>>",
       "const std::shared_ptr< tep::EstimatableParameterSet< double > >",
       "const bool",
       "const std::shared_ptr< tudat::numerical_integrators::IntegratorSettings< double > >",
       "const bool", "const bool", "const bool"]
      [py_arg "bodies",
       py_arg "integrator_settings",
       py_arg "propagator_settings",
       py_arg "estimated_parameters",
       py_arg_eq "integrate_equations_concurrently" "true",
       py_arg_eq "variational_only_integrator_settings"
         "std::shared_ptr< tudat::numerical_integrators::IntegratorSettings< double > >( )",
       py_arg_eq "clear_numerical_solutions" "false",
       py_arg_eq "integrate_on_creation" "true",
       py_arg_eq "set_integrated_result" "false"]
      none
  |>.def_ "integrate_equations_of_motion_only" "integrateDynamicalEquationsOfMotionOnly"
      [py_arg "initial_states"] none
  |>.def_ "integrate_full_equations" "integrateVariationalAndDynamicalEquations"
      [py_arg "initial_states", py_arg "integrate_equations_concurrently"] none
  |>.def_property "parameter_vector" "getParametersToEstimate" "resetParameterEstimate" none
  |>.def_property_readonly "variational_equations_history"
      "getNumericalVariationalEquationsSolution" none
  |>.def_property_readonly "state_transition_matrix_history"
      "getStateTransitionMatrixSolution" none
  |>.def_property_readonly "sensitivity_matrix_history" "getSensitivityMatrixSolution" none
  |>.def_property_readonly "state_history" "getEquationsOfMotionSolution" none
  |>.def_property_readonly "dynamics_simulator" "getDynamicsSimulator" none

/-- The class chain of lines 207-231. -/
def Estimator : PyClass :=
  (class_ ⟨"tss::OrbitDeterminationManager", dd⟩ [] "Estimator")
  |>.def_init
      ["const tss::SystemOfBodies&",
       "const std::shared_ptr< tep::EstimatableParameterSet< double > >",
       "const std::vector< std::shared_ptr< tom::ObservationModelSettings > >&",
       "const std::shared_ptr< tni::IntegratorSettings< double > >",
       "const std::shared_ptr< tp::PropagatorSettings< double > >",
       "const bool"]
      [py_arg "bodies",
       py_arg "estimated_parameters",
       py_arg "observation_settings",
       py_arg "integrator_settings",
       py_arg "propagator_settings",
       py_arg_eq "integrate_on_creation" "true"]
      none
  |>.def_property_readonly "observation_simulators" "getObservationSimulators" none
  |>.def_property_readonly "observation_managers" "getObservationManagers" none
  |>.def_property_readonly "state_transition_interface"
      "getStateTransitionAndSensitivityMatrixInterface" none
  |>.def_ "perform_estimation" "estimateParameters"
      [py_arg "estimation_input",
       py_arg_eq "convergence_checker"
         "std::make_shared< tss::EstimationConvergenceChecker >( )"]
      none

/-- The classes that `expose_numerical_simulation` registers on its own module,
in source order. -/
def expose_numerical_simulation_classes : List PyClass :=
  [SingleArcSimulator, SingleArcVariationalSimulator, Estimator]

/-! ## expose_astro/expose_observations.cpp -/

/-- The class type `tom::ObservationSimulatorBase<double,double>`. -/
def ObservationSimulatorBase : CppType := ⟨"tom::ObservationSimulatorBase", dd⟩

/-- The class type `tom::ObservationSimulator<n,double,double>`. -/
def ObservationSimulatorOf (n : Nat) : CppType :=
  ⟨"tom::ObservationSimulator", TemplateArg.int n :: dd⟩

/-- Lines 32-33. -/
def ObservationCollection : PyClass :=
  class_ ⟨"tom::ObservationCollection", []⟩ [] "ObservationCollection"

/-- Lines 35-39. -/
def ObservationViabilityCalculator : PyClass :=
  (class_ ⟨"tom::ObservationViabilityCalculator", []⟩ [] "ObservationViabilityCalculator")
  |>.def_ "is_observation_viable" "isObservationViable"
      [py_arg "link_end_states", py_arg "link_end_times"] none

/-- Lines 41-42. -/
def ObservationSimulator : PyClass :=
  class_ ObservationSimulatorBase [] "ObservationSimulator"

/-- Lines 44-46. -/
def ObservationSimulator_1 : PyClass :=
  class_ (ObservationSimulatorOf 1) [ObservationSimulatorBase] "ObservationSimulator_1"

/-- Lines 48-50. -/
def ObservationSimulator_2 : PyClass :=
  class_ (ObservationSimulatorOf 2) [ObservationSimulatorBase] "ObservationSimulator_2"

/-- Lines 52-54. -/
def ObservationSimulator_3 : PyClass :=
  class_ (ObservationSimulatorOf 3) [ObservationSimulatorBase] "ObservationSimulator_3"

/-- Lines 56-58. -/
def ObservationSimulator_6 : PyClass :=
  class_ (ObservationSimulatorOf 6) [ObservationSimulatorBase] "ObservationSimulator_6"

/-- The classes registered by `expose_observations`, in source order. -/
def expose_observations : List PyClass :=
  [ObservationCollection, ObservationViabilityCalculator, ObservationSimulator,
   ObservationSimulator_1, ObservationSimulator_2, ObservationSimulator_3,
   ObservationSimulator_6]

/-- The class of a module registered under a Python name. -/
def findClass (module : List PyClass) (n : String) : Option PyClass :=
  module.find? (fun c => c.name == n)

/-- The Python name under which a module registers a C++ type. -/
def registeredName (module : List PyClass) (t : CppType) : Option String :=
  (module.find? (fun c => c.cppType == t)).map PyClass.name

/-! ## expose_propagation_setup/expose_acceleration_setup.cpp -/

/-- Lines 135-163: the class chain of `ThrustAccelerationSettings`.  The first
`def_readwrite` names the attribute `direction_settings` and points at the
member `thrustMagnitudeSettings_`; the second names `magnitude_settings` and
points at `thrustDirectionSettings_`. -/
def ThrustAccelerationSettings : PyClass :=
  (class_ ⟨"tss::ThrustAccelerationSettings", []⟩ [⟨"tss::AccelerationSettings", []⟩]
    "ThrustAccelerationSettings")
  |>.def_readwrite "direction_settings" "thrustMagnitudeSettings_" none
  |>.def_readwrite "magnitude_settings" "thrustDirectionSettings_" none

namespace tss

/-- The C++ object behind the Python class: the two data members named by the
member pointers of the chain.  Their types are declared in the tudat headers;
`D` stands for the values of `std::shared_ptr<ThrustDirectionSettings>` and `M`
for those of `std::shared_ptr<ThrustMagnitudeSettings>`. -/
structure ThrustAccelerationSettings (D M : Type) where
  thrustDirectionSettings_ : D
  thrustMagnitudeSettings_ : M
deriving DecidableEq, Repr

end tss

/-- A Python object that can be read from or assigned to an attribute of
`ThrustAccelerationSettings`, tagged with its run-time class. -/
inductive PyValue (D M : Type) where
  | directionSettings (d : D)
  | magnitudeSettings (m : M)
deriving DecidableEq, Repr

/-- The Python exceptions an attribute access can end in. -/
inductive PyError where
  | attributeError
  | typeError
deriving DecidableEq, Repr

/-- Reading through a member pointer `&tss::ThrustAccelerationSettings::field`. -/
def readField {D M : Type} (s : tss.ThrustAccelerationSettings D M) (field : String) :
    Option (PyValue D M) :=
  if field = "thrustDirectionSettings_" then
    some (PyValue.directionSettings s.thrustDirectionSettings_)
  else if field = "thrustMagnitudeSettings_" then
    some (PyValue.magnitudeSettings s.thrustMagnitudeSettings_)
  else none

/-- Assigning through a member pointer: the setter that `def_readwrite`
generates takes a value of the member's own type, so pybind11 first casts the
Python object to that type and raises `TypeError` when the cast fails. -/
def writeField {D M : Type} (s : tss.ThrustAccelerationSettings D M) (field : String)
    (v : PyValue D M) : Except PyError (tss.ThrustAccelerationSettings D M) :=
  if field = "thrustDirectionSettings_" then
    match v with
    | PyValue.directionSettings d => Except.ok ⟨d, s.thrustMagnitudeSettings_⟩
    | PyValue.magnitudeSettings _ => Except.error PyError.typeError
  else if field = "thrustMagnitudeSettings_" then
    match v with
    | PyValue.magnitudeSettings m => Except.ok ⟨s.thrustDirectionSettings_, m⟩
    | PyValue.directionSettings _ => Except.error PyError.typeError
  else Except.error PyError.attributeError

/-- Python `s.name` on a `ThrustAccelerationSettings` object. -/
def getattr {D M : Type} (s : tss.ThrustAccelerationSettings D M) (name : String) :
    Option (PyValue D M) :=
  ((ThrustAccelerationSettings.lookup name).bind Member.getter?).bind (readField s)

/-- Python `s.name = v` on a `ThrustAccelerationSettings` object. -/
def setattr {D M : Type} (s : tss.ThrustAccelerationSettings D M) (name : String)
    (v : PyValue D M) : Except PyError (tss.ThrustAccelerationSettings D M) :=
  match (ThrustAccelerationSettings.lookup name).bind Member.setter? with
  | some field => writeField s field v
  | none => Except.error PyError.attributeError

/-! ## expose_numerical_simulation/expose_environment_setup.cpp -/

/-- A free function registered with `m.def(name, &target, args..., doc)`. -/
structure PyFunction where
  name : String
  target : String
  args : List Arg
  doc : Option String
deriving DecidableEq, Repr

/-- The statement `m.def(name, &target, args..., doc)`. -/
def m_def_ (name target : String) (args : List Arg) (doc : Option String) : PyFunction :=
  ⟨name, target, args, doc⟩

/-- Lines 215-219. -/
def set_aerodynamic_guidance : PyFunction :=
  m_def_ "set_aerodynamic_guidance" "tss::setGuidanceAnglesFunctionsPy"
    [py_arg "aerodynamic_guidance", py_arg "body", py_arg_eq "silence_warnings" "false"]
    none

/-- The C++ exception the function can throw; pybind11 turns a
`std::runtime_error` into a Python `RuntimeError` with the same message. -/
inductive CppException where
  | runtime_error (what : String)
deriving DecidableEq, Repr

/-- How a call of a C++ function ends: it returns, it throws, or it applies `->`
to a null `std::shared_ptr`, which is undefined behaviour (in practice the
process is killed by a segmentation fault). -/
inductive CppOutcome where
  | returned
  | thrown (e : CppException)
  | nullDereference
deriving DecidableEq, Repr

namespace reference_frames

/-- The dynamic type of an object held through a
`std::shared_ptr<DependentOrientationCalculator>`: an `AerodynamicAngleCalculator`
(values `A`) or an object of another derived class (values `O`). -/
inductive DependentOrientationCalculator (A O : Type) where
  | aerodynamicAngleCalculator (a : A)
  | other (o : O)
deriving DecidableEq, Repr

/-- The cast `std::dynamic_pointer_cast<AerodynamicAngleCalculator>(p)`: null for
a null pointer and for an object of another class. -/
def dynamic_pointer_cast {A O : Type} :
    Option (DependentOrientationCalculator A O) → Option A
  | some (DependentOrientationCalculator.aerodynamicAngleCalculator a) => some a
  | some (DependentOrientationCalculator.other _) => none
  | none => none

end reference_frames

namespace tss

/-- The part of `tss::Body` the function reads: the pointer returned by
`getDependentOrientationCalculator`, `none` for `nullptr`. -/
structure Body (A O : Type) where
  dependentOrientationCalculator_ : Option (reference_frames.DependentOrientationCalculator A O)
deriving DecidableEq, Repr

/-- The getter `Body::getDependentOrientationCalculator`. -/
def Body.getDependentOrientationCalculator {A O : Type} (b : Body A O) :
    Option (reference_frames.DependentOrientationCalculator A O) :=
  b.dependentOrientationCalculator_

/-- Lines 51-69.  The library function `setGuidanceAnglesFunctions` is declared
in the tudat headers; it is taken as a parameter acting on the state `W` it can
change.  `bodyWithAngles` is a `std::shared_ptr< tss::Body >`, `none` for
`nullptr`: the binding declares it with a plain `py::arg("body")`, so Python
`None` arrives as the null pointer.  The first statement applies `->` to it
without a test, before anything else has run.  The result is how the call ends
and the state at that point. -/
def setGuidanceAnglesFunctionsPy {G A O W : Type}
    (setGuidanceAnglesFunctions : G → A → Bool → W → W)
    (aerodynamicGuidance : G) (bodyWithAngles : Option (Body A O)) (silenceWarnings : Bool)
    (w : W) : CppOutcome × W :=
  match bodyWithAngles with
  | none => (CppOutcome.nullDereference, w)
  | some body =>
    let orientationCalculator := body.getDependentOrientationCalculator
    let angleCalculator := reference_frames.dynamic_pointer_cast orientationCalculator
    match angleCalculator with
    | none =>
      (CppOutcome.thrown (CppException.runtime_error
        "Error, body does not have AerodynamicAngleCalculator when setting aerodynamic guidance"),
       w)
    | some calculator =>
      (CppOutcome.returned,
       setGuidanceAnglesFunctions aerodynamicGuidance calculator silenceWarnings w)

/-- One recorded call of `setGuidanceAnglesFunctions`, with its three arguments. -/
structure GuidanceCall (G A : Type) where
  aerodynamicGuidance : G
  angleCalculator : A
  silenceWarnings : Bool
deriving DecidableEq, Repr

/-- An instance of the library function that only records each call it
receives at the end of a log. -/
def recordGuidanceCall {G A : Type} (g : G) (a : A) (silenceWarnings : Bool)
    (log : List (GuidanceCall G A)) : List (GuidanceCall G A) :=
  log ++ [⟨g, a, silenceWarnings⟩]

end tss

/-! ## Enumerations -/

/-- An enumeration registered with `py::enum_<cppType>(m, name, doc)`.  Each
entry of `values` is one `.value(pyName, cppType::enumerator)` link: the exposed
name and the C++ enumerator it stands for.  The enum declarations are in the
tudat headers, so an enumerator is identified by its identifier. -/
structure PyEnum where
  cppType : String
  name : String
  values : List (String × String)
  exported : Bool
deriving DecidableEq, Repr

/-- The expression `py::enum_<cppType>(m, name, doc)`. -/
def enum_ (cppType name : String) : PyEnum := ⟨cppType, name, [], false⟩

namespace PyEnum

/-- The link `.value(pyName, cppType::enumerator)`. -/
def value (e : PyEnum) (pyName enumerator : String) : PyEnum :=
  ⟨e.cppType, e.name, e.values ++ [(pyName, enumerator)], e.exported⟩

/-- The link `.export_values()`. -/
def export_values (e : PyEnum) : PyEnum := ⟨e.cppType, e.name, e.values, true⟩

/-- The exposed names, in registration order. -/
def names (e : PyEnum) : List String := e.values.map Prod.fst

/-- The enumerators the exposed names stand for, in registration order. -/
def kinds (e : PyEnum) : List String := e.values.map Prod.snd

/-- The enumerator an exposed name stands for. -/
def kindOf (e : PyEnum) (pyName : String) : Option String := e.values.lookup pyName

/-- The first exposed name that stands for an enumerator. -/
def nameOf (e : PyEnum) (enumerator : String) : Option String :=
  (e.values.find? (fun v => v.2 == enumerator)).map Prod.fst

end PyEnum

/-- Lines 67-82 of expose_acceleration_setup.cpp. -/
def AvailableAcceleration : PyEnum :=
  (enum_ "tba::AvailableAcceleration" "AvailableAcceleration")
  |>.value "undefined_acceleration_type" "undefined_acceleration"
  |>.value "point_mass_gravity_type" "point_mass_gravity"
  |>.value "aerodynamic_type" "aerodynamic"
  |>.value "cannonball_radiation_pressure_type" "cannon_ball_radiation_pressure"
  |>.value "spherical_harmonic_gravity_type" "spherical_harmonic_gravity"
  |>.value "mutual_spherical_harmonic_gravity_type" "mutual_spherical_harmonic_gravity"
  |>.value "thrust_acceleration_type" "thrust_acceleration"
  |>.value "relativistic_correction_acceleration_type" "relativistic_correction_acceleration"
  |>.value "empirical_acceleration_type" "empirical_acceleration"
  |>.value "direct_tidal_dissipation_in_central_body_acceleration_type"
      "direct_tidal_dissipation_in_central_body_acceleration"
  |>.value "direct_tidal_dissipation_in_orbiting_body_acceleration_type"
      "direct_tidal_dissipation_in_orbiting_body_acceleration"
  |>.value "panelled_radiation_pressure_acceleration_type"
      "panelled_radiation_pressure_acceleration"
  |>.value "quasi_impulsive_shots_acceleration_type"
      "momentum_wheel_desaturation_acceleration"
  |>.value "solar_sail_acceleration_type" "solar_sail_acceleration"
  |>.export_values

/-- Lines 79-85 of expose_thrust_setup.cpp. -/
def ThrustDirectionGuidanceTypes : PyEnum :=
  (enum_ "tss::ThrustDirectionTypes" "ThrustDirectionGuidanceTypes")
  |>.value "colinear_with_state_segment_thrust_direction_type"
      "colinear_with_state_segment_thrust_direction"
  |>.value "thrust_direction_from_existing_body_orientation_type"
      "thrust_direction_from_existing_body_orientation"
  |>.value "custom_thrust_direction_type" "custom_thrust_direction"
  |>.value "custom_thrust_orientation_type" "custom_thrust_orientation"
  |>.value "mee_costate_based_thrust_direction_type" "mee_costate_based_thrust_direction"

/-- Lines 89-94 of expose_thrust_setup.cpp. -/
def ThrustFrames : PyEnum :=
  (enum_ "trf::SatelliteReferenceFrames" "ThrustFrames")
  |>.value "unspecified_thrust_frame_type" "unspecified_reference_frame"
  |>.value "inertial_thrust_frame_type" "global_reference_frame"
  |>.value "tnw_thrust_frame_type" "tnw_reference_frame"
  |>.export_values

/-- Lines 178-184 of expose_thrust_setup.cpp. -/
def ThrustMagnitudeTypes : PyEnum :=
  (enum_ "tss::ThrustMagnitudeTypes" "ThrustMagnitudeTypes")
  |>.value "constant_thrust_magnitude" "constant_thrust_magnitude"
  |>.value "from_engine_properties_thrust_magnitude" "from_engine_properties_thrust_magnitude"
  |>.value "thrust_magnitude_from_time_function" "thrust_magnitude_from_time_function"
  |>.value "thrust_magnitude_from_dependent_variables"
      "thrust_magnitude_from_dependent_variables"
  |>.value "bang_bang_thrust_magnitude_from_mee_costates"
      "bang_bang_thrust_magnitude_from_mee_costates"

/-- Lines 41-52 of expose_rotation_model_setup.cpp. -/
def RotationModelType : PyEnum :=
  (enum_ "tss::RotationModelType" "RotationModelType")
  |>.value "simple_rotational_model" "simple_rotation_model"
  |>.value "spice_rotation_model" "spice_rotation_model"
  |>.value "gcrs_to_itrs_rotation_model" "gcrs_to_itrs_rotation_model"
  |>.value "synchronous_rotation_model" "synchronous_rotation_model"
  |>.value "planetary_rotation_model" "planetary_rotation_model"
  |>.export_values

/-- Lines 54-61 of expose_rotation_model_setup.cpp. -/
def IAUConventions : PyEnum :=
  (enum_ "tba::IAUConventions" "IAUConventions")
  |>.value "iau_2000_a" "iau_2000_a"
  |>.value "iau_2000_b" "iau_2000_b"
  |>.value "iau_2006" "iau_2006"
  |>.export_values

/-- Every `py::enum_` of the source files, in the order acceleration set-up,
thrust set-up, rotation model set-up. -/
def exposed_enumerations : List PyEnum :=
  [AvailableAcceleration, ThrustDirectionGuidanceTypes, ThrustFrames, ThrustMagnitudeTypes,
   RotationModelType, IAUConventions]

/-! ## Default argument expressions -/

/-- A value of `Eigen::Vector3d`; the components that occur in the sources are
the integers 0 and 1. -/
structure Vector3d where
  x : Int
  y : Int
  z : Int
deriving DecidableEq, Repr

/-- The vector `Eigen::Vector3d::UnitX( )`. -/
def Vector3d.UnitX : Vector3d := ⟨1, 0, 0⟩

/-- The C++ expressions written to the right of `py::arg(name) =` in the sources. -/
inductive CppExpr where
  | boolLit (b : Bool)
  | stringLit (s : String)
  | vector3dUnitX
  | enumerator (enumType name : String)
  | sharedPtrDefault (pointee : String)
  | makeShared (pointee : String)
  | stdFunctionDefault (signature : String)
  | stdFunctionOfLambda (signature : String) (paramTypes : List String) (body : CppExpr)
deriving DecidableEq, Repr

/-- The values these expressions evaluate to.  An object created by
`std::make_shared` is identified by its allocation number. -/
inductive CppValue where
  | bool (b : Bool)
  | string (s : String)
  | vector3d (v : Vector3d)
  | enumerator (enumType name : String)
  | nullSharedPtr (pointee : String)
  | sharedPtr (pointee : String) (object : Nat)
  | emptyFunction (signature : String)
  | closure (signature : String) (arity : Nat) (body : CppExpr)
deriving DecidableEq, Repr

/-- Evaluation of an expression on a heap that has `heap` objects so far:
`std::shared_ptr<T>( )` is the null pointer, `std::make_shared<T>( )` allocates
one new object, `std::function<S>( )` is the empty function, and a lambda
without captures becomes a closure over its body. -/
def CppExpr.eval : CppExpr → Nat → CppValue × Nat
  | boolLit b, heap => (CppValue.bool b, heap)
  | stringLit s, heap => (CppValue.string s, heap)
  | vector3dUnitX, heap => (CppValue.vector3d Vector3d.UnitX, heap)
  | enumerator t n, heap => (CppValue.enumerator t n, heap)
  | sharedPtrDefault t, heap => (CppValue.nullSharedPtr t, heap)
  | makeShared t, heap => (CppValue.sharedPtr t heap, heap + 1)
  | stdFunctionDefault sig, heap => (CppValue.emptyFunction sig, heap)
  | stdFunctionOfLambda sig params body, heap =>
    (CppValue.closure sig params.length body, heap)

/-- Calling a `std::function` value: a closure called with as many arguments as
it has parameters returns the value of its body, in which no parameter occurs;
calling an empty function or another value gives no result. -/
def CppValue.call (f : CppValue) (args : List CppValue) (heap : Nat) :
    Option (CppValue × Nat) :=
  match f with
  | closure _ arity body => if args.length = arity then some (body.eval heap) else none
  | _ => none

/-- The default expressions of the bindings modelled here: the text as written
in the source, next to its syntax tree. -/
def default_expressions : List (String × CppExpr) :=
  [("true", CppExpr.boolLit true),
   ("false", CppExpr.boolLit false),
   ("\"\"", CppExpr.stringLit ""),
   ("Eigen::Vector3d::UnitX()", CppExpr.vector3dUnitX),
   ("trf::SatelliteReferenceFrames::global_reference_frame",
    CppExpr.enumerator "trf::SatelliteReferenceFrames" "global_reference_frame"),
   ("std::shared_ptr< tudat::numerical_integrators::IntegratorSettings< double > >( )",
    CppExpr.sharedPtrDefault "tudat::numerical_integrators::IntegratorSettings< double >"),
   ("std::make_shared< tss::EstimationConvergenceChecker >( )",
    CppExpr.makeShared "tss::EstimationConvergenceChecker"),
   ("std::function< bool( const double ) >( [ ]( const double )\x7b return true; \x7d )",
    CppExpr.stdFunctionOfLambda "bool( const double )" ["const double"]
      (CppExpr.boolLit true)),
   ("std::function< Eigen::Vector3d( ) >( [ ]( )\x7b return  Eigen::Vector3d::UnitX( ); \x7d )",
    CppExpr.stdFunctionOfLambda "Eigen::Vector3d( )" [] CppExpr.vector3dUnitX),
   ("std::function< void( const double ) >( )",
    CppExpr.stdFunctionDefault "void( const double )")]

/-- The syntax tree of the default expression of an argument. -/
def Arg.defaultExpr (a : Arg) : Option CppExpr :=
  a.defaultValue.bind default_expressions.lookup

/-- The default expression of the argument `argName` in a list of arguments. -/
def defaultOf (args : List Arg) (argName : String) : Option CppExpr :=
  (args.find? (fun a => a.name == argName)).bind Arg.defaultExpr

/-- The arguments without default value, in positional order. -/
def requiredArgs (args : List Arg) : List String :=
  (args.filter (fun a => a.defaultValue.isNone)).map Arg.name

/-- The arguments of the constructor of a class, empty if it has none. -/
def PyClass.ctorArgs (c : PyClass) : List Arg :=
  match c.constructors with
  | ctor :: _ => ctor.args
  | [] => []

/-! ## Function records: what `.def` keeps and what a call receives -/

/-- What pybind11 keeps of a bound function once its `.def` statement has run:
the target and, for each keyword in positional order, the value of its default
expression.  The expressions `py::arg(name) = value` are arguments of the `.def`
call, so they are evaluated then, once, and only their values are kept. -/
structure FunctionRecord where
  target : String
  stored : List (String × Option CppValue)
deriving DecidableEq, Repr

/-- Evaluation of the defaults of an argument list, left to right, on a heap
with `heap` objects; no result if a default is not one of `default_expressions`. -/
def recordArgs : List Arg → Nat → Option (List (String × Option CppValue) × Nat)
  | [], heap => some ([], heap)
  | a :: rest, heap =>
    match a.defaultValue with
    | none => (recordArgs rest heap).map (fun r => ((a.name, none) :: r.1, r.2))
    | some text =>
      match default_expressions.lookup text with
      | none => none
      | some e =>
        (recordArgs rest (e.eval heap).2).map
          (fun r => ((a.name, some (e.eval heap).1) :: r.1, r.2))

/-- Running the `.def` statement of a method on a heap with `heap` objects. -/
def Member.define (m : Member) (heap : Nat) : Option (FunctionRecord × Nat) :=
  match m.target? with
  | none => none
  | some t => (recordArgs m.args heap).map (fun r => (⟨t, r.1⟩, r.2))

/-- The arguments the C++ target receives for a positional Python call: the
given objects first, then the stored default of every keyword left over; no
result (a `TypeError`) with too many arguments or a missing one without default. -/
def resolveArgs : List (String × Option CppValue) → List CppValue → Option (List CppValue)
  | [], [] => some []
  | [], _ :: _ => none
  | _ :: rest, g :: given => (resolveArgs rest given).map (fun r => g :: r)
  | (_, some d) :: rest, [] => (resolveArgs rest []).map (fun r => d :: r)
  | (_, none) :: _, [] => none

/-- A positional Python call of a bound function. -/
def FunctionRecord.call (f : FunctionRecord) (given : List CppValue) :
    Option (List CppValue) :=
  resolveArgs f.stored given

/-! ## Free functions of the acceleration and thrust set-up modules -/

/-- The target `py::overload_cast<params...>(&function)`: the overload of
`function` with these parameter types. -/
def overload_cast (params : List String) (function : String) : String :=
  function ++ "(" ++ ", ".intercalate params ++ ")"

/-- Lines 177-178 of expose_acceleration_setup.cpp. -/
def panelled_radiation_pressure : PyFunction :=
  m_def_ "panelled_radiation_pressure" "tss::panelledRadiationPressureAcceleration" []
    (some "panelled_radiation_pressure")

/-- Lines 209-213 of expose_acceleration_setup.cpp. -/
def custom : PyFunction :=
  m_def_ "custom"
    (overload_cast ["std::function< Eigen::Vector3d( const double ) >"]
      "tss::customAccelerationSettings")
    [py_arg "acceleration_function"]
    (some "custom")

/-- Lines 235-244 of expose_acceleration_setup.cpp. -/
def thrust_from_custom_function : PyFunction :=
  m_def_ "thrust_from_custom_function"
    (overload_cast
      ["const std::function< Eigen::Vector3d( const double ) >",
       "const std::function<double(const double)>",
       "const trf::SatelliteReferenceFrames",
       "const std::string"]
      "tss::thrustAcceleration")
    [py_arg "thrust_force_function",
     py_arg "specific_impulse_function",
     py_arg_eq "thrust_frame" "trf::SatelliteReferenceFrames::global_reference_frame",
     py_arg_eq "central_body" "\"\""]
    (some "thrust_from_custom_function")

/-- Lines 246-255 of expose_acceleration_setup.cpp. -/
def thrust_and_isp_from_custom_function : PyFunction :=
  m_def_ "thrust_and_isp_from_custom_function"
    (overload_cast
      ["const std::function< Eigen::Vector3d( const double ) >",
       "const double",
       "const trf::SatelliteReferenceFrames",
       "const std::string"]
      "tss::thrustAcceleration")
    [py_arg "thrust_force_function",
     py_arg "constant_specific_impulse",
     py_arg_eq "thrust_frame" "trf::SatelliteReferenceFrames::global_reference_frame",
     py_arg_eq "central_body" "\"\""]
    (some "thrust_and_isp_from_custom_function")

/-- Lines 279-284 of expose_thrust_setup.cpp. -/
def constant_thrust_magnitude : PyFunction :=
  m_def_ "constant_thrust_magnitude" "tss::constantThrustMagnitudeSettings"
    [py_arg "thrust_magnitude",
     py_arg "specific_impulse",
     py_arg_eq "body_fixed_thrust_direction" "Eigen::Vector3d::UnitX()"]
    (some "constant_thrust_magnitude")

/-- Lines 286-294 of expose_thrust_setup.cpp. -/
def custom_thrust_magnitude : PyFunction :=
  m_def_ "custom_thrust_magnitude" "tss::fromFunctionThrustMagnitudeSettings"
    [py_arg "thrust_magnitude_function",
     py_arg "specific_impulse_function",
     py_arg_eq "is_engine_on_function"
       "std::function< bool( const double ) >( [ ]( const double )\x7b return true; \x7d )",
     py_arg_eq "body_fixed_thrust_direction"
       "std::function< Eigen::Vector3d( ) >( [ ]( )\x7b return  Eigen::Vector3d::UnitX( ); \x7d )",
     py_arg_eq "custom_thrust_reset_function" "std::function< void( const double ) >( )"]
    (some "custom_thrust_magnitude")

namespace tss

/-- An object of dynamic class `AccelerationSettings`, as built by
`std::make_shared< AccelerationSettings >( accelerationType )`: the enumerator
handed to the constructor. -/
structure AccelerationSettings where
  accelerationType_ : String
deriving DecidableEq, Repr

/-- An object of dynamic class `CustomAccelerationSettings`, as built by
`std::make_shared< CustomAccelerationSettings >( accelerationFunction )`: the
function object handed to the constructor, of type `F`. -/
structure CustomAccelerationSettings (F : Type) where
  accelerationFunction_ : F

/-- Lines 37-40 of expose_acceleration_setup.cpp. -/
def panelledRadiationPressureAcceleration : AccelerationSettings :=
  ⟨"panelled_radiation_pressure_acceleration"⟩

/-- Lines 43-49 of expose_acceleration_setup.cpp.  The function object has an
arbitrary type `F`: the factory has no operation on it but to pass it on. -/
def customAccelerationSettings {F : Type} (accelerationFunction : F) :
    CustomAccelerationSettings F :=
  ⟨accelerationFunction⟩

end tss

/-! ## Submodule wiring -/

/-- The two statements by which an expose function wires a submodule:
`auto var = m.def_submodule(name);` and `ns::function(var);`. -/
inductive WiringStmt where
  | def_submodule (var name : String)
  | expose (ns function var : String)
deriving DecidableEq, Repr

/-- Lines 37-53 of expose_numerical_simulation.cpp. -/
def expose_numerical_simulation : List WiringStmt :=
  [WiringStmt.def_submodule "environment_submodule" "environment",
   WiringStmt.expose "environment" "expose_environment" "environment_submodule",
   WiringStmt.def_submodule "propagation_submodule" "propagation",
   WiringStmt.expose "propagation" "expose_propagation" "propagation_submodule",
   WiringStmt.def_submodule "estimation_submodule" "estimation",
   WiringStmt.expose "estimation" "expose_estimation" "estimation_submodule",
   WiringStmt.def_submodule "environment_setup_submodule" "environment_setup",
   WiringStmt.expose "environment_setup" "expose_environment_setup"
     "environment_setup_submodule",
   WiringStmt.def_submodule "propagation_setup_submodule" "propagation_setup",
   WiringStmt.expose "propagation_setup" "expose_propagation_setup"
     "propagation_setup_submodule",
   WiringStmt.def_submodule "estimation_setup_submodule" "estimation_setup",
   WiringStmt.expose "estimation_setup" "expose_estimation_setup"
     "estimation_setup_submodule"]

/-- Lines 247-269 of expose_environment_setup.cpp. -/
def expose_environment_setup : List WiringStmt :=
  [WiringStmt.def_submodule "aerodynamic_coefficient_setup" "aerodynamic_coefficients",
   WiringStmt.expose "aerodynamic_coefficients" "expose_aerodynamic_coefficient_setup"
     "aerodynamic_coefficient_setup",
   WiringStmt.def_submodule "radiation_pressure_setup" "radiation_pressure",
   WiringStmt.expose "radiation_pressure" "expose_radiation_pressure_setup"
     "radiation_pressure_setup",
   WiringStmt.def_submodule "rotation_model_setup" "rotation_model",
   WiringStmt.expose "rotation_model" "expose_rotation_model_setup" "rotation_model_setup",
   WiringStmt.def_submodule "gravity_field_setup" "gravity_field",
   WiringStmt.expose "gravity_field" "expose_gravity_field_setup" "gravity_field_setup",
   WiringStmt.def_submodule "ephemeris_setup" "ephemeris",
   WiringStmt.expose "ephemeris" "expose_ephemeris_setup" "ephemeris_setup",
   WiringStmt.def_submodule "atmosphere_setup" "atmosphere",
   WiringStmt.expose "atmosphere" "expose_atmosphere_setup" "atmosphere_setup",
   WiringStmt.def_submodule "shape_setup" "shape",
   WiringStmt.expose "shape" "expose_shape_setup" "shape_setup",
   WiringStmt.def_submodule "gravity_variation_setup" "gravity_field_variation",
   WiringStmt.expose "gravity_field_variation" "expose_gravity_field_variation_setup"
     "gravity_variation_setup"]

/-- The submodules a body creates: variable and Python name, in source order. -/
def submodules (body : List WiringStmt) : List (String × String) :=
  body.filterMap (fun st =>
    match st with
    | WiringStmt.def_submodule v n => some (v, n)
    | WiringStmt.expose _ _ _ => none)

/-- The expose calls of a body: namespace-qualified function and the variable
it is applied to, in source order. -/
def exposeCalls (body : List WiringStmt) : List ((String × String) × String) :=
  body.filterMap (fun st =>
    match st with
    | WiringStmt.def_submodule _ _ => none
    | WiringStmt.expose ns f v => some ((ns, f), v))

/-- The functions that populate the submodule held in variable `var`. -/
def populators (body : List WiringStmt) (var : String) : List (String × String) :=
  ((exposeCalls body).filter (fun c => c.2 == var)).map Prod.fst

/-- Each submodule name of a body with the functions that populate it. -/
def wiring (body : List WiringStmt) : List (String × List (String × String)) :=
  (submodules body).map (fun s => (s.2, populators body s.1))

end Tudatpy

/-! ## Verified properties -/

namespace Tudatpy

/-- C1: among the properties bound on SingleArcSimulator,
SingleArcVariationalSimulator and Estimator, an assignment reaches a setter
exactly for `parameter_vector` of SingleArcVariationalSimulator, whose setter is
`resetParameterEstimate`; every other property, each history named in the claim
among them, is a property without setter.  Attribute names are unique inside
each class, so no later registration shadows one of these. -/
theorem C1_only_parameter_vector_has_setter :
    (∀ c ∈ expose_numerical_simulation_classes, ∀ m ∈ c.properties,
      (m.setter?.isSome ↔
        (c.name = "SingleArcVariationalSimulator" ∧ m.pyName = "parameter_vector"))) ∧
    (SingleArcVariationalSimulator.lookup "parameter_vector").bind Member.setter?
      = some "resetParameterEstimate" ∧
    (∀ n ∈ ["state_history", "unprocessed_state_history", "dependent_variable_history",
            "cumulative_computation_time_history"],
      (SingleArcSimulator.lookup n).map (fun m => (m.isProperty, m.setter?))
        = some (true, none)) ∧
    (∀ n ∈ ["variational_equations_history", "state_transition_matrix_history",
            "sensitivity_matrix_history", "state_history", "dynamics_simulator"],
      (SingleArcVariationalSimulator.lookup n).map (fun m => (m.isProperty, m.setter?))
        = some (true, none)) ∧
    (∀ c ∈ expose_numerical_simulation_classes, (c.members.map Member.pyName).Nodup) := by
  decide

/-- C2: Estimator has five members: one constructor, the three properties
observation_simulators, observation_managers and state_transition_interface,
and the single method perform_estimation.  The method runs `estimateParameters`;
each property has its own getter, no setter, and no getter is
`estimateParameters`. -/
theorem C2_perform_estimation_is_the_only_method :
    Estimator.methods.map Member.pyName = ["perform_estimation"] ∧
    (Estimator.lookup "perform_estimation").bind Member.target? = some "estimateParameters" ∧
    Estimator.constructors.length = 1 ∧
    Estimator.members.length = 5 ∧
    Estimator.properties.map (fun m => (m.pyName, m.getter?, m.setter?)) =
      [("observation_simulators", some "getObservationSimulators", none),
       ("observation_managers", some "getObservationManagers", none),
       ("state_transition_interface",
        some "getStateTransitionAndSensitivityMatrixInterface", none)] ∧
    (Estimator.properties.map Member.getter?).Nodup ∧
    (∀ m ∈ Estimator.properties, m.getter? ≠ some "estimateParameters") := by
  decide

/-- C3: on SingleArcSimulator, `state_history` reads through
`getEquationsOfMotionNumericalSolution` (the processed solution) and
`unprocessed_state_history` through `getEquationsOfMotionNumericalSolutionRaw`
(the raw solution); the two getters differ. -/
theorem C3_state_history_views_not_swapped :
    (SingleArcSimulator.lookup "state_history").bind Member.getter?
      = some "getEquationsOfMotionNumericalSolution" ∧
    (SingleArcSimulator.lookup "unprocessed_state_history").bind Member.getter?
      = some "getEquationsOfMotionNumericalSolutionRaw" ∧
    (SingleArcSimulator.lookup "state_history").bind Member.getter?
      ≠ (SingleArcSimulator.lookup "unprocessed_state_history").bind Member.getter? := by
  decide

/-- C4: ObservationViabilityCalculator has exactly one member, the method
is_observation_viable bound to `isObservationViable`, with the two keyword
arguments link_end_states and link_end_times in that order and no default
value; it has no constructor, no base class, no property and so no setter. -/
theorem C4_viability_calculator_interface :
    ObservationViabilityCalculator.members =
      [Member.method "is_observation_viable" "isObservationViable"
        [⟨"link_end_states", none⟩, ⟨"link_end_times", none⟩] none] ∧
    ObservationViabilityCalculator.argNames "is_observation_viable"
      = some ["link_end_states", "link_end_times"] ∧
    (∀ m ∈ ObservationViabilityCalculator.members,
      ∀ a ∈ m.args, a.defaultValue = none) ∧
    ObservationViabilityCalculator.constructors = [] ∧
    ObservationViabilityCalculator.properties = [] ∧
    (∀ m ∈ ObservationViabilityCalculator.members, m.setter? = none) ∧
    ObservationViabilityCalculator.methods.map Member.pyName = ["is_observation_viable"] ∧
    ObservationViabilityCalculator.bases = [] := by
  decide

/-- C5: for every N in 1, 2, 3, 6 the class registered as `ObservationSimulator_N`
wraps `tom::ObservationSimulator<N,double,double>`, has the single base
`tom::ObservationSimulatorBase<double,double>`, and has no member of its own;
that base is the class registered as `ObservationSimulator`, and all names
registered by `expose_observations` are pairwise distinct. -/
theorem C5_observation_simulator_specialisations :
    (∀ n ∈ [1, 2, 3, 6],
      findClass expose_observations ("ObservationSimulator_" ++ toString n) =
        some ⟨ObservationSimulatorOf n, [ObservationSimulatorBase],
              "ObservationSimulator_" ++ toString n, []⟩) ∧
    registeredName expose_observations ObservationSimulatorBase
      = some "ObservationSimulator" ∧
    (expose_observations.map PyClass.name).Nodup ∧
    (expose_observations.map PyClass.cppType).Nodup := by
  decide

/-- C6 as stated fails: the keyword names of perform_estimation are not
observation_input, convergence_checker. -/
theorem C6_observation_input_is_not_a_keyword :
    Estimator.argNames "perform_estimation"
      ≠ some ["observation_input", "convergence_checker"] := by
  decide

/-- C6, amended: perform_estimation accepts its two arguments under the keyword
names estimation_input and convergence_checker, in that order. -/
theorem C6_perform_estimation_keywords :
    Estimator.argNames "perform_estimation"
      = some ["estimation_input", "convergence_checker"] := by
  decide

/-- C7 as stated fails: not every one of the three constructors has a keyword
named integrate_on_creation. -/
theorem C7_not_every_constructor_has_integrate_on_creation :
    ¬ (∀ c ∈ [SingleArcSimulator, SingleArcVariationalSimulator, Estimator],
        ∀ ctor ∈ c.constructors, "integrate_on_creation" ∈ ctor.args.map Arg.name) := by
  decide

/-- C7, amended: each of the three classes has one constructor;
SingleArcVariationalSimulator and Estimator take a `const bool` flag under the
keyword name integrate_on_creation, and SingleArcSimulator takes its `const bool`
flag under the keyword name are_equations_of_motion_to_be_integrated and has no
keyword integrate_on_creation. -/
theorem C7_propagation_flag_keywords :
    (∀ c ∈ [SingleArcSimulator, SingleArcVariationalSimulator, Estimator],
      c.constructors.length = 1) ∧
    (∀ c ∈ [SingleArcVariationalSimulator, Estimator], ∀ ctor ∈ c.constructors,
      ("integrate_on_creation", "const bool") ∈ ctor.params) ∧
    (∀ ctor ∈ SingleArcSimulator.constructors,
      ("are_equations_of_motion_to_be_integrated", "const bool") ∈ ctor.params ∧
      "integrate_on_creation" ∉ ctor.args.map Arg.name) := by
  decide

/-- C8, evaluated on the object with direction field 1 and magnitude field 2:
reading direction_settings gives the magnitude field, assigning a direction
settings object to direction_settings is refused with TypeError, and assigning
a magnitude settings object to it overwrites the magnitude field; symmetrically
magnitude_settings reads and writes the direction field. -/
theorem C8_direction_and_magnitude_attributes_are_swapped :
    getattr (⟨1, 2⟩ : tss.ThrustAccelerationSettings Nat Nat) "direction_settings"
      = some (PyValue.magnitudeSettings 2) ∧
    setattr (⟨1, 2⟩ : tss.ThrustAccelerationSettings Nat Nat) "direction_settings"
      (PyValue.directionSettings 7) = Except.error PyError.typeError ∧
    setattr (⟨1, 2⟩ : tss.ThrustAccelerationSettings Nat Nat) "direction_settings"
      (PyValue.magnitudeSettings 9) = Except.ok ⟨1, 9⟩ ∧
    getattr (⟨1, 2⟩ : tss.ThrustAccelerationSettings Nat Nat) "magnitude_settings"
      = some (PyValue.directionSettings 1) ∧
    setattr (⟨1, 2⟩ : tss.ThrustAccelerationSettings Nat Nat) "magnitude_settings"
      (PyValue.magnitudeSettings 9) = Except.error PyError.typeError ∧
    setattr (⟨1, 2⟩ : tss.ThrustAccelerationSettings Nat Nat) "magnitude_settings"
      (PyValue.directionSettings 7) = Except.ok ⟨7, 2⟩ := by
  refine ⟨by decide, rfl, rfl, by decide, rfl, rfl⟩

/-- C9 as stated fails at the null body (Python `None`): the call ends in a
null dereference, so it raises no runtime error, and the library function
setGuidanceAnglesFunctions has not been called either, while the claim has every
call either raise or forward exactly once. -/
theorem C9_null_body_neither_throws_nor_forwards :
    tss.setGuidanceAnglesFunctionsPy tss.recordGuidanceCall (3 : Nat)
        (none : Option (tss.Body Nat Nat)) true []
      = (CppOutcome.nullDereference, []) ∧
    ¬ ((∃ msg, (tss.setGuidanceAnglesFunctionsPy tss.recordGuidanceCall (3 : Nat)
          (none : Option (tss.Body Nat Nat)) true []).1
            = CppOutcome.thrown (CppException.runtime_error msg)) ∨
       (∃ a, (tss.setGuidanceAnglesFunctionsPy tss.recordGuidanceCall (3 : Nat)
          (none : Option (tss.Body Nat Nat)) true []).2 = [⟨3, a, true⟩])) := by
  refine ⟨rfl, ?_⟩
  rintro (⟨msg, h⟩ | ⟨a, h⟩)
  · cases h
  · cases h

/-- C9, amended: set_aerodynamic_guidance is bound to
setGuidanceAnglesFunctionsPy, and for a non-null body the call throws a runtime
error if and only if the dependent orientation calculator held by the body is
null or is not an AerodynamicAngleCalculator.  When it throws, the library
function setGuidanceAnglesFunctions has not run: the call log has no new entry
and, for every instance of the library function, the state is unchanged.  When
the body holds an AerodynamicAngleCalculator a, the call returns and the library
function has run once on the same guidance object, on a and on the same
silence_warnings value: the log has exactly one new entry, holding these
three.  A call that does not throw is of this second kind. -/
theorem C9_set_aerodynamic_guidance_throws_iff_no_angle_calculator
    {G A O : Type} (g : G) (body : tss.Body A O) (silence : Bool)
    (log : List (tss.GuidanceCall G A)) :
    set_aerodynamic_guidance.target = "tss::setGuidanceAnglesFunctionsPy" ∧
    ((∃ msg, (tss.setGuidanceAnglesFunctionsPy tss.recordGuidanceCall g (some body)
          silence log).1 = CppOutcome.thrown (CppException.runtime_error msg)) ↔
      (body.dependentOrientationCalculator_ = none ∨
        ∃ o, body.dependentOrientationCalculator_
          = some (reference_frames.DependentOrientationCalculator.other o))) ∧
    ((∃ msg, (tss.setGuidanceAnglesFunctionsPy tss.recordGuidanceCall g (some body)
          silence log).1 = CppOutcome.thrown (CppException.runtime_error msg)) →
      (tss.setGuidanceAnglesFunctionsPy tss.recordGuidanceCall g (some body) silence log).2
        = log ∧
      ∀ (W : Type) (f : G → A → Bool → W → W) (w : W),
        (tss.setGuidanceAnglesFunctionsPy f g (some body) silence w).2 = w) ∧
    (∀ a, body.dependentOrientationCalculator_
        = some (reference_frames.DependentOrientationCalculator.aerodynamicAngleCalculator a) →
      tss.setGuidanceAnglesFunctionsPy tss.recordGuidanceCall g (some body) silence log
        = (CppOutcome.returned, log ++ [⟨g, a, silence⟩]) ∧
      ∀ (W : Type) (f : G → A → Bool → W → W) (w : W),
        tss.setGuidanceAnglesFunctionsPy f g (some body) silence w
          = (CppOutcome.returned, f g a silence w)) ∧
    ((¬ ∃ msg, (tss.setGuidanceAnglesFunctionsPy tss.recordGuidanceCall g (some body)
          silence log).1 = CppOutcome.thrown (CppException.runtime_error msg)) →
      ∃ a, body.dependentOrientationCalculator_
        = some (reference_frames.DependentOrientationCalculator.aerodynamicAngleCalculator a)) := by
  refine ⟨by decide, ?_⟩
  obtain ⟨oc⟩ := body
  rcases oc with _ | ⟨a | o⟩
  · refine ⟨⟨fun _ => Or.inl rfl, fun _ => ⟨_, rfl⟩⟩, fun _ => ⟨rfl, fun _ _ _ => rfl⟩, ?_, ?_⟩
    · intro a h
      cases h
    · intro h
      exact absurd ⟨_, rfl⟩ h
  · refine ⟨⟨?_, ?_⟩, ?_, ?_, fun _ => ⟨a, rfl⟩⟩
    · rintro ⟨msg, h⟩
      cases h
    · rintro (h | ⟨o, h⟩)
      · cases h
      · cases h
    · rintro ⟨msg, h⟩
      cases h
    · intro b h
      cases h
      exact ⟨rfl, fun _ _ _ => rfl⟩
  · refine ⟨⟨fun _ => Or.inr ⟨o, rfl⟩, fun _ => ⟨_, rfl⟩⟩, fun _ => ⟨rfl, fun _ _ _ => rfl⟩, ?_, ?_⟩
    · intro a h
      cases h
    · intro h
      exact absurd ⟨_, rfl⟩ h

/-- C9 at three concrete bodies, with guidance object 3, silence_warnings true
and an empty log: a body that holds the AerodynamicAngleCalculator 5 makes the
call return with the single log entry (3, 5, true); a body without calculator
and a body that holds the other calculator 7 make it throw and leave the log
empty. -/
theorem C9_set_aerodynamic_guidance_witness :
    tss.setGuidanceAnglesFunctionsPy tss.recordGuidanceCall (3 : Nat)
        (some (⟨some (reference_frames.DependentOrientationCalculator.aerodynamicAngleCalculator
          5)⟩ : tss.Body Nat Nat)) true []
      = (CppOutcome.returned, [⟨3, 5, true⟩]) ∧
    ((∃ msg, (tss.setGuidanceAnglesFunctionsPy tss.recordGuidanceCall (3 : Nat)
        (some (⟨none⟩ : tss.Body Nat Nat)) true []).1
          = CppOutcome.thrown (CppException.runtime_error msg)) ∧
      (tss.setGuidanceAnglesFunctionsPy tss.recordGuidanceCall (3 : Nat)
        (some (⟨none⟩ : tss.Body Nat Nat)) true []).2 = []) ∧
    ((∃ msg, (tss.setGuidanceAnglesFunctionsPy tss.recordGuidanceCall (3 : Nat)
        (some (⟨some (reference_frames.DependentOrientationCalculator.other 7)⟩ :
          tss.Body Nat Nat)) true []).1
          = CppOutcome.thrown (CppException.runtime_error msg)) ∧
      (tss.setGuidanceAnglesFunctionsPy tss.recordGuidanceCall (3 : Nat)
        (some (⟨some (reference_frames.DependentOrientationCalculator.other 7)⟩ :
          tss.Body Nat Nat)) true []).2 = []) :=
  have hcalc := C9_set_aerodynamic_guidance_throws_iff_no_angle_calculator (3 : Nat)
    (⟨some (reference_frames.DependentOrientationCalculator.aerodynamicAngleCalculator 5)⟩ :
      tss.Body Nat Nat) true []
  have hnone := C9_set_aerodynamic_guidance_throws_iff_no_angle_calculator (3 : Nat)
    (⟨none⟩ : tss.Body Nat Nat) true []
  have hother := C9_set_aerodynamic_guidance_throws_iff_no_angle_calculator (3 : Nat)
    (⟨some (reference_frames.DependentOrientationCalculator.other 7)⟩ : tss.Body Nat Nat)
    true []
  have hnoneThrows := hnone.2.1.mpr (Or.inl rfl)
  have hotherThrows := hother.2.1.mpr (Or.inr ⟨7, rfl⟩)
  ⟨(hcalc.2.2.2.1 5 rfl).1,
   ⟨hnoneThrows, (hnone.2.2.1 hnoneThrows).1⟩,
   ⟨hotherThrows, (hother.2.2.1 hotherThrows).1⟩⟩

/-- C20: on SingleArcVariationalSimulator, integrate_equations_of_motion_only has
the single keyword argument initial_states and runs
`integrateDynamicalEquationsOfMotionOnly`; integrate_full_equations has the two
keyword arguments initial_states and integrate_equations_concurrently, neither
with a default value, and runs `integrateVariationalAndDynamicalEquations`; the
two targets differ, and these are the only two methods of the class. -/
theorem C20_integrate_methods_bound_to_distinct_operations :
    SingleArcVariationalSimulator.lookup "integrate_equations_of_motion_only" =
      some (Member.method "integrate_equations_of_motion_only"
        "integrateDynamicalEquationsOfMotionOnly" [⟨"initial_states", none⟩] none) ∧
    SingleArcVariationalSimulator.lookup "integrate_full_equations" =
      some (Member.method "integrate_full_equations"
        "integrateVariationalAndDynamicalEquations"
        [⟨"initial_states", none⟩, ⟨"integrate_equations_concurrently", none⟩] none) ∧
    SingleArcVariationalSimulator.argNames "integrate_equations_of_motion_only"
      = some ["initial_states"] ∧
    SingleArcVariationalSimulator.argNames "integrate_full_equations"
      = some ["initial_states", "integrate_equations_concurrently"] ∧
    (SingleArcVariationalSimulator.lookup "integrate_equations_of_motion_only").bind
        Member.target?
      ≠ (SingleArcVariationalSimulator.lookup "integrate_full_equations").bind
        Member.target? ∧
    SingleArcVariationalSimulator.methods.map Member.pyName
      = ["integrate_equations_of_motion_only", "integrate_full_equations"] := by
  decide

/-- C21: in each exposed enumeration the exposed names are pairwise distinct,
the enumerators they stand for are pairwise distinct, and two names with the
same enumerator are the same name; the five enumerations named in the claim are
among them, and AvailableAcceleration has 14 names standing for 14 distinct
enumerators. -/
theorem C21_enumeration_names_are_injective :
    (∀ e ∈ exposed_enumerations, e.names.Nodup ∧ e.kinds.Nodup ∧
      ∀ n₁ ∈ e.names, ∀ n₂ ∈ e.names, e.kindOf n₁ = e.kindOf n₂ → n₁ = n₂) ∧
    (∀ e ∈ [AvailableAcceleration, ThrustDirectionGuidanceTypes, ThrustFrames,
            RotationModelType, IAUConventions], e ∈ exposed_enumerations) ∧
    AvailableAcceleration.names.length = 14 ∧
    AvailableAcceleration.kinds.dedup.length = 14 := by
  decide

/-- C22: the flag that starts the propagation at construction defaults to true
on the three constructors (are_equations_of_motion_to_be_integrated on
SingleArcSimulator, integrate_on_creation on the two others);
clear_numerical_solutions and set_integrated_result default to false on
SingleArcSimulator and SingleArcVariationalSimulator;
integrate_equations_concurrently defaults to true and
variational_only_integrator_settings to a null shared pointer; the arguments
before these have no default. -/
theorem C22_constructor_defaults :
    (defaultOf SingleArcSimulator.ctorArgs "are_equations_of_motion_to_be_integrated"
        = some (CppExpr.boolLit true) ∧
      defaultOf SingleArcVariationalSimulator.ctorArgs "integrate_on_creation"
        = some (CppExpr.boolLit true) ∧
      defaultOf Estimator.ctorArgs "integrate_on_creation" = some (CppExpr.boolLit true) ∧
      (∀ c ∈ [SingleArcSimulator, SingleArcVariationalSimulator],
        defaultOf c.ctorArgs "clear_numerical_solutions" = some (CppExpr.boolLit false) ∧
        defaultOf c.ctorArgs "set_integrated_result" = some (CppExpr.boolLit false)) ∧
      defaultOf SingleArcVariationalSimulator.ctorArgs "integrate_equations_concurrently"
        = some (CppExpr.boolLit true) ∧
      defaultOf SingleArcVariationalSimulator.ctorArgs "variational_only_integrator_settings"
        = some (CppExpr.sharedPtrDefault
            "tudat::numerical_integrators::IntegratorSettings< double >") ∧
      requiredArgs SingleArcSimulator.ctorArgs
        = ["bodies", "integrator_settings", "propagator_settings"] ∧
      requiredArgs SingleArcVariationalSimulator.ctorArgs
        = ["bodies", "integrator_settings", "propagator_settings", "estimated_parameters"] ∧
      requiredArgs Estimator.ctorArgs
        = ["bodies", "estimated_parameters", "observation_settings", "integrator_settings",
           "propagator_settings"]) ∧
    (∀ heap : Nat,
      (defaultOf SingleArcVariationalSimulator.ctorArgs
          "variational_only_integrator_settings").map (fun e => e.eval heap)
        = some (CppValue.nullSharedPtr
            "tudat::numerical_integrators::IntegratorSettings< double >", heap)) := by
  refine ⟨by decide, fun heap => ?_⟩
  have h : defaultOf SingleArcVariationalSimulator.ctorArgs
      "variational_only_integrator_settings"
      = some (CppExpr.sharedPtrDefault
          "tudat::numerical_integrators::IntegratorSettings< double >") := by decide
  rw [h]
  rfl

/-- C23: perform_estimation has the one required argument estimation_input.
Running its `.def` statement on any heap allocates exactly one object, the
EstimationConvergenceChecker of `std::make_shared< ... >( )`, and stores the
pointer to it; every call with one argument passes that same pointer as second
argument to `estimateParameters`, a call with two arguments passes the given
one, and a call without argument is refused. -/
theorem C23_default_convergence_checker_is_created_once (heap : Nat) :
    ((Estimator.lookup "perform_estimation").map (fun m => requiredArgs m.args))
      = some ["estimation_input"] ∧
    ((Estimator.lookup "perform_estimation").bind
        (fun m => defaultOf m.args "convergence_checker"))
      = some (CppExpr.makeShared "tss::EstimationConvergenceChecker") ∧
    ∃ f : FunctionRecord,
      (Estimator.lookup "perform_estimation").bind (fun m => m.define heap)
        = some (f, heap + 1) ∧
      f.target = "estimateParameters" ∧
      (∀ x : CppValue, f.call [x]
        = some [x, CppValue.sharedPtr "tss::EstimationConvergenceChecker" heap]) ∧
      (∀ x c : CppValue, f.call [x, c] = some [x, c]) ∧
      f.call [] = none := by
  refine ⟨by decide, by decide, ?_⟩
  have hm : Estimator.lookup "perform_estimation"
      = some (Member.method "perform_estimation" "estimateParameters"
          [⟨"estimation_input", none⟩,
           ⟨"convergence_checker",
            some "std::make_shared< tss::EstimationConvergenceChecker >( )"⟩] none) := by
    decide
  have hl : default_expressions.lookup
      "std::make_shared< tss::EstimationConvergenceChecker >( )"
      = some (CppExpr.makeShared "tss::EstimationConvergenceChecker") := by decide
  refine ⟨⟨"estimateParameters",
    [("estimation_input", none),
     ("convergence_checker",
      some (CppValue.sharedPtr "tss::EstimationConvergenceChecker" heap))]⟩, ?_, rfl,
    fun _ => rfl, fun _ _ => rfl, rfl⟩
  rw [hm]
  simp only [Option.bind, Member.define, Member.target?, Member.args, recordArgs, hl,
    CppExpr.eval, Option.map]

/-- C24: panelled_radiation_pressure is bound without keyword argument to
`panelledRadiationPressureAcceleration`, which returns an object of class
AccelerationSettings built with the enumerator
panelled_radiation_pressure_acceleration; that enumerator is the one exposed as
panelled_radiation_pressure_acceleration_type, and it is not the enumerator of
cannonball_radiation_pressure_type. -/
theorem C24_panelled_radiation_pressure_factory :
    panelled_radiation_pressure.args = [] ∧
    panelled_radiation_pressure.target = "tss::panelledRadiationPressureAcceleration" ∧
    tss.panelledRadiationPressureAcceleration
      = (⟨"panelled_radiation_pressure_acceleration"⟩ : tss.AccelerationSettings) ∧
    AvailableAcceleration.nameOf tss.panelledRadiationPressureAcceleration.accelerationType_
      = some "panelled_radiation_pressure_acceleration_type" ∧
    AvailableAcceleration.kindOf "panelled_radiation_pressure_acceleration_type"
      = some tss.panelledRadiationPressureAcceleration.accelerationType_ ∧
    AvailableAcceleration.kindOf "cannonball_radiation_pressure_type"
      = some "cannon_ball_radiation_pressure" ∧
    AvailableAcceleration.kindOf "cannonball_radiation_pressure_type"
      ≠ some tss.panelledRadiationPressureAcceleration.accelerationType_ := by
  decide

/-- C25: custom is bound to `customAccelerationSettings` with the one keyword
acceleration_function.  For a function object g of any type the settings
returned hold g itself, so the factory has not applied or wrapped it; for a
function f of time the stored function is f and gives f(t) at every time t. -/
theorem C25_custom_factory_stores_the_function {F T V : Type} (g : F) (f : T → V) :
    custom.target
      = overload_cast ["std::function< Eigen::Vector3d( const double ) >"]
          "tss::customAccelerationSettings" ∧
    custom.args = [py_arg "acceleration_function"] ∧
    (tss.customAccelerationSettings g).accelerationFunction_ = g ∧
    (tss.customAccelerationSettings f).accelerationFunction_ = f ∧
    (∀ t : T, (tss.customAccelerationSettings f).accelerationFunction_ t = f t) :=
  ⟨rfl, rfl, rfl, rfl, fun _ => rfl⟩

/-- C26: custom_thrust_magnitude has two required arguments.  The default of
is_engine_on_function is a function of one argument that returns true at every
time; the default of body_fixed_thrust_direction is a function without argument
that returns (1, 0, 0) on every call; the default of custom_thrust_reset_function
is the empty function; and the default body_fixed_thrust_direction of
constant_thrust_magnitude is the same vector (1, 0, 0). -/
theorem C26_custom_thrust_magnitude_defaults (heap : Nat) :
    requiredArgs custom_thrust_magnitude.args
      = ["thrust_magnitude_function", "specific_impulse_function"] ∧
    (∃ isEngineOn : CppValue,
      (defaultOf custom_thrust_magnitude.args "is_engine_on_function").map
          (fun e => e.eval heap) = some (isEngineOn, heap) ∧
      ∀ (t : CppValue) (h : Nat), isEngineOn.call [t] h = some (CppValue.bool true, h)) ∧
    (∃ direction : CppValue,
      (defaultOf custom_thrust_magnitude.args "body_fixed_thrust_direction").map
          (fun e => e.eval heap) = some (direction, heap) ∧
      ∀ h : Nat, direction.call [] h = some (CppValue.vector3d ⟨1, 0, 0⟩, h)) ∧
    (defaultOf custom_thrust_magnitude.args "custom_thrust_reset_function").map
        (fun e => e.eval heap)
      = some (CppValue.emptyFunction "void( const double )", heap) ∧
    (defaultOf constant_thrust_magnitude.args "body_fixed_thrust_direction").map
        (fun e => e.eval heap)
      = some (CppValue.vector3d ⟨1, 0, 0⟩, heap) := by
  have h1 : defaultOf custom_thrust_magnitude.args "is_engine_on_function"
      = some (CppExpr.stdFunctionOfLambda "bool( const double )" ["const double"]
          (CppExpr.boolLit true)) := by decide
  have h2 : defaultOf custom_thrust_magnitude.args "body_fixed_thrust_direction"
      = some (CppExpr.stdFunctionOfLambda "Eigen::Vector3d( )" [] CppExpr.vector3dUnitX) := by
    decide
  have h3 : defaultOf custom_thrust_magnitude.args "custom_thrust_reset_function"
      = some (CppExpr.stdFunctionDefault "void( const double )") := by decide
  have h4 : defaultOf constant_thrust_magnitude.args "body_fixed_thrust_direction"
      = some CppExpr.vector3dUnitX := by decide
  rw [h1, h2, h3, h4]
  exact ⟨by decide, ⟨_, rfl, fun _ _ => rfl⟩, ⟨_, rfl, fun _ => rfl⟩, rfl, rfl⟩

/-- C27: thrust_from_custom_function and thrust_and_isp_from_custom_function
both default thrust_frame to the enumerator global_reference_frame of
`trf::SatelliteReferenceFrames`, which the enumeration ThrustFrames of that type
exposes as inertial_thrust_frame_type, and both default central_body to the
empty string. -/
theorem C27_thrust_frame_and_central_body_defaults :
    (∀ f ∈ [thrust_from_custom_function, thrust_and_isp_from_custom_function],
      defaultOf f.args "thrust_frame"
        = some (CppExpr.enumerator "trf::SatelliteReferenceFrames" "global_reference_frame") ∧
      defaultOf f.args "central_body" = some (CppExpr.stringLit "")) ∧
    ThrustFrames.cppType = "trf::SatelliteReferenceFrames" ∧
    ThrustFrames.nameOf "global_reference_frame" = some "inertial_thrust_frame_type" ∧
    ThrustFrames.kindOf "inertial_thrust_frame_type" = some "global_reference_frame" := by
  decide

/-- C28: expose_numerical_simulation creates the six submodules environment,
propagation, estimation, environment_setup, propagation_setup and
estimation_setup, and expose_environment_setup the eight submodules
aerodynamic_coefficients, radiation_pressure, rotation_model, gravity_field,
ephemeris, atmosphere, shape and gravity_field_variation.  Each submodule is
populated by exactly one expose call, of the namespace with the submodule's
name; names, variables and expose functions are pairwise distinct. -/
theorem C28_submodule_wiring_is_one_to_one :
    wiring expose_numerical_simulation =
      [("environment", [("environment", "expose_environment")]),
       ("propagation", [("propagation", "expose_propagation")]),
       ("estimation", [("estimation", "expose_estimation")]),
       ("environment_setup", [("environment_setup", "expose_environment_setup")]),
       ("propagation_setup", [("propagation_setup", "expose_propagation_setup")]),
       ("estimation_setup", [("estimation_setup", "expose_estimation_setup")])] ∧
    wiring expose_environment_setup =
      [("aerodynamic_coefficients",
        [("aerodynamic_coefficients", "expose_aerodynamic_coefficient_setup")]),
       ("radiation_pressure", [("radiation_pressure", "expose_radiation_pressure_setup")]),
       ("rotation_model", [("rotation_model", "expose_rotation_model_setup")]),
       ("gravity_field", [("gravity_field", "expose_gravity_field_setup")]),
       ("ephemeris", [("ephemeris", "expose_ephemeris_setup")]),
       ("atmosphere", [("atmosphere", "expose_atmosphere_setup")]),
       ("shape", [("shape", "expose_shape_setup")]),
       ("gravity_field_variation",
        [("gravity_field_variation", "expose_gravity_field_variation_setup")])] ∧
    (∀ body ∈ [expose_numerical_simulation, expose_environment_setup],
      ((submodules body).map Prod.snd).Nodup ∧
      ((submodules body).map Prod.fst).Nodup ∧
      ((exposeCalls body).map Prod.fst).Nodup ∧
      ((exposeCalls body).map Prod.snd).Nodup ∧
      (exposeCalls body).length = (submodules body).length ∧
      ∀ w ∈ wiring body, w.2.map Prod.fst = [w.1]) ∧
    (((exposeCalls expose_numerical_simulation).map Prod.fst)
      ++ ((exposeCalls expose_environment_setup).map Prod.fst)).Nodup := by
  decide

end Tudatpy
